import Mathlib

/-!
Verification development for the Sustanability telemetry repository.

The definitions below are a shallow embedding of the three Python sources:
`src/app.py` (the sampling loop with CSV and Prometheus sinks),
`src/Process based/main.py` (the power-probe chain), and
`src/docker_app.py` (the Docker/Kubernetes metric collector).

Python floats are modelled as rationals (`ℚ`); exceptions are modelled with
`Except Unit` or `Option`; module-level mutable globals that the relevant
code never reassigns (`write_to_file`) are modelled as constants with their
initialised value.  String handling is implemented over `List Char` so that
every definition evaluates by kernel reduction.
-/

/- Batteries marks rational arithmetic `@[irreducible]`, which blocks the
kernel evaluation used by `decide` on concrete inputs; restore the default
transparency for this file. -/
attribute [local semireducible] Rat.add Rat.mul Rat.inv Rat.sub

/-! ## Python-style values and parsing primitives -/

/-- A value carried in a metric row: Python floats/ints become `num`,
Python strings become `str`. -/
inductive Value where
  | num (q : ℚ)
  | str (s : String)
deriving DecidableEq, Repr

/-- Characters stripped by Python `str.strip()` (the whitespace that occurs
in this repository's data: space, tab, CR, LF). -/
def isWS (c : Char) : Bool := c = ' ' ∨ c = '\t' ∨ c = '\r' ∨ c = '\n'

/-- `str.strip()` on a character list. -/
def stripChars (cs : List Char) : List Char :=
  ((cs.dropWhile isWS).reverse.dropWhile isWS).reverse

/-- `str.strip()`. -/
def pyStrip (s : String) : String := (stripChars s.toList).asString

/-- Split a character list on a separator character, keeping empty chunks,
as Python `str.split(sep)` does for a one-character separator. -/
def splitOnChar (sep : Char) : List Char → List (List Char)
  | [] => [[]]
  | c :: cs =>
    let rest := splitOnChar sep cs
    if c = sep then [] :: rest
    else match rest with
      | [] => [[c]]
      | r :: rs => (c :: r) :: rs

/-- Python `s.split(sep)` for a one-character separator. -/
def pySplit (sep : Char) (s : String) : List String :=
  (splitOnChar sep s.toList).map List.asString

/-- Python `s.split()` (no argument): split on whitespace runs, dropping
empty fields. -/
def pySplitWs (s : String) : List String :=
  ((splitOnChar ' ' (s.toList.map fun c => if isWS c then ' ' else c)).filter
    (fun w => w ≠ [])).map List.asString

/-- Does the first list start with the second? -/
def listStartsWith : List Char → List Char → Bool
  | _, [] => true
  | [], _ :: _ => false
  | c :: cs, d :: ds => c = d && listStartsWith cs ds

/-- Does `hay` contain `needle` as a contiguous sublist? -/
def listContainsSub (hay needle : List Char) : Bool :=
  match hay with
  | [] => needle = []
  | _ :: t => listStartsWith hay needle || listContainsSub t needle

/-- Python `needle in haystack` on strings. -/
def strContains (haystack needle : String) : Bool :=
  listContainsSub haystack.toList needle.toList

/-- Accumulate a decimal digit list into a natural number. -/
def digitsToNat (cs : List Char) : ℕ :=
  cs.foldl (fun a c => 10 * a + (c.toNat - 48)) 0

/-- Parse a non-empty all-digit list. -/
def parseNatDigits (cs : List Char) : Option ℕ :=
  if cs ≠ [] ∧ cs.all Char.isDigit then some (digitsToNat cs) else none

/-- Consume an optional leading sign; returns whether the value is negated. -/
def takeSign : List Char → Bool × List Char
  | '+' :: cs => (false, cs)
  | '-' :: cs => (true, cs)
  | cs => (false, cs)

/-- Parse an unsigned decimal mantissa: `digits`, `digits.`, `.digits` or
`digits.digits`, exactly the shapes Python `float()` accepts there. -/
def parseUnsignedFloat (cs : List Char) : Option ℚ :=
  let intPart := cs.takeWhile Char.isDigit
  let rest := cs.dropWhile Char.isDigit
  match rest with
  | [] => if intPart ≠ [] then some (digitsToNat intPart : ℚ) else none
  | '.' :: rest2 =>
    let fracPart := rest2.takeWhile Char.isDigit
    let rest3 := rest2.dropWhile Char.isDigit
    if rest3 = [] ∧ (intPart ≠ [] ∨ fracPart ≠ []) then
      some ((digitsToNat intPart : ℚ)
        + (digitsToNat fracPart : ℚ) / ((10 : ℚ) ^ fracPart.length))
    else none
  | _ => none

/-- Python `float(s)` on a string: strip, optional sign, decimal mantissa,
optional `e`/`E` exponent.  (`inf`/`nan`/underscores, which never occur in
this repository's data, are treated as unparsable.) -/
def pyFloat (s : String) : Option ℚ :=
  let cs := (stripChars s.toList).map fun c => if c = 'E' then 'e' else c
  let (neg, cs1) := takeSign cs
  let signedQ : ℚ → ℚ := fun q => if neg then -q else q
  match splitOnChar 'e' cs1 with
  | [m] => (parseUnsignedFloat m).map signedQ
  | [m, e] =>
    match parseUnsignedFloat m with
    | none => none
    | some mant =>
      let (eneg, ecs) := takeSign e
      match parseNatDigits ecs with
      | none => none
      | some ev =>
        some (signedQ (mant * (10 : ℚ) ^ (if eneg then -(ev : ℤ) else (ev : ℤ))))
  | _ => none

/-- Python `int(s)` on a string: strip, optional sign, digits. -/
def pyInt (s : String) : Option ℤ :=
  let cs := stripChars s.toList
  let (neg, cs1) := takeSign cs
  (parseNatDigits cs1).map (fun n => if neg then -(n : ℤ) else (n : ℤ))

/-- Python `float(value)` on a row value; `none` models the `ValueError`. -/
def floatConv : Value → Option ℚ
  | .num q => some q
  | .str s => pyFloat s

/-- Python `str(value)` on a row value (the rational rendering differs
textually from CPython's float repr; no claim inspects the rendered text). -/
def pyStr : Value → String
  | .num q => toString q
  | .str s => s

/-- Python `round(x, 2)`.  CPython rounds half to even on the binary double;
`round` on `ℚ` rounds half up.  The two agree away from ties, and every
input in this development is tie-free. -/
def round2 (q : ℚ) : ℚ := ((round (q * 100) : ℤ) : ℚ) / 100

/-- Equality of modelled raise-or-return outcomes is decidable. -/
instance exceptDecEq {ε α : Type} [DecidableEq ε] [DecidableEq α] :
    DecidableEq (Except ε α) := fun a b =>
  match a, b with
  | .error e, .error e' =>
    if h : e = e' then .isTrue (by rw [h])
    else .isFalse (fun hc => by injection hc with h'; exact h h')
  | .ok x, .ok y =>
    if h : x = y then .isTrue (by rw [h])
    else .isFalse (fun hc => by injection hc with h'; exact h h')
  | .error _, .ok _ => .isFalse (fun hc => Except.noConfusion hc)
  | .ok _, .error _ => .isFalse (fun hc => Except.noConfusion hc)

/-! ## `src/app.py`: schema, registry sink, CSV sink, estimator, loop -/

/-- `HEADERS` (app.py:17-23): the fixed CSV/metric column order. -/
def HEADERS : List String := [
  "timestamp", "project_name", "run_id", "duration", "emissions", "emissions_rate",
  "cpu_power", "gpu_power", "ram_power", "cpu_energy", "gpu_energy", "ram_energy",
  "energy_consumed", "country_name", "country_iso_code", "region", "on_cloud",
  "cloud_provider", "cloud_region", "os", "python_version", "cpu_count", "cpu_model", "cpu_name",
  "gpu_count", "gpu_model", "gpu_name", "longitude", "latitude", "ram_total_size", "ram_name", "tracking_mode"]

/-- `NUMERIC_METRICS` (app.py:26-29). -/
def NUMERIC_METRICS : List String := [
  "duration", "emissions", "emissions_rate", "cpu_power", "gpu_power", "ram_power",
  "cpu_energy", "gpu_energy", "ram_energy", "energy_consumed", "cpu_count", "gpu_count", "ram_total_size"]

/-- `TEXT_LABELS` (app.py:32-36). -/
def TEXT_LABELS : List String := [
  "project_name", "country_name", "country_iso_code", "region", "on_cloud",
  "cloud_provider", "cloud_region", "os", "python_version", "cpu_model", "cpu_name",
  "gpu_model", "gpu_name", "longitude", "latitude", "ram_name", "tracking_mode"]

/-- `GRID_CARBON_FACTOR = 400` (app.py:72). -/
def GRID_CARBON_FACTOR : ℚ := 400

/-- `PROJECT_NAME` (app.py:73). -/
def PROJECT_NAME : String := "codecarbon"

/-- `write_to_file = False` (app.py:15); the module never reassigns it. -/
def write_to_file : Bool := false

/-- The CPU max-power constant: app.py:180 uses the literal `65`; the spec
names it `CPU_TDP_WATTS`. -/
def CPU_TDP_WATTS : ℚ := 65

/-- The RAM watts-per-GB constant: app.py:191 uses the literal `2`. -/
def RAM_WATTS_PER_GB : ℚ := 2

/-- The thirteen numeric gauges registered at app.py:42-45, one per entry of
`NUMERIC_METRICS`. -/
structure Gauges where
  duration : ℚ
  emissions : ℚ
  emissions_rate : ℚ
  cpu_power : ℚ
  gpu_power : ℚ
  ram_power : ℚ
  cpu_energy : ℚ
  gpu_energy : ℚ
  ram_energy : ℚ
  energy_consumed : ℚ
  cpu_count : ℚ
  gpu_count : ℚ
  ram_total_size : ℚ
deriving DecidableEq, Repr

/-- `metrics[name].set v` (app.py:231): setting a gauge by metric name; a
name outside `NUMERIC_METRICS` has no gauge and changes nothing. -/
def setGauge (g : Gauges) (name : String) (v : ℚ) : Gauges :=
  if name = "duration" then { g with duration := v }
  else if name = "emissions" then { g with emissions := v }
  else if name = "emissions_rate" then { g with emissions_rate := v }
  else if name = "cpu_power" then { g with cpu_power := v }
  else if name = "gpu_power" then { g with gpu_power := v }
  else if name = "ram_power" then { g with ram_power := v }
  else if name = "cpu_energy" then { g with cpu_energy := v }
  else if name = "gpu_energy" then { g with gpu_energy := v }
  else if name = "ram_energy" then { g with ram_energy := v }
  else if name = "energy_consumed" then { g with energy_consumed := v }
  else if name = "cpu_count" then { g with cpu_count := v }
  else if name = "gpu_count" then { g with gpu_count := v }
  else if name = "ram_total_size" then { g with ram_total_size := v }
  else g

/-- Reading a gauge by metric name (a name with no gauge reads as 0). -/
def gaugeValue (g : Gauges) (name : String) : ℚ :=
  if name = "duration" then g.duration
  else if name = "emissions" then g.emissions
  else if name = "emissions_rate" then g.emissions_rate
  else if name = "cpu_power" then g.cpu_power
  else if name = "gpu_power" then g.gpu_power
  else if name = "ram_power" then g.ram_power
  else if name = "cpu_energy" then g.cpu_energy
  else if name = "gpu_energy" then g.gpu_energy
  else if name = "ram_energy" then g.ram_energy
  else if name = "energy_consumed" then g.energy_consumed
  else if name = "cpu_count" then g.cpu_count
  else if name = "gpu_count" then g.gpu_count
  else if name = "ram_total_size" then g.ram_total_size
  else 0

/-- State of the Prometheus registry (app.py:39-53): the numeric gauges and
the label set last applied to the `sustainability_info` metadata gauge
(`none` before the first publish). -/
structure PromState where
  gauges : Gauges
  infoLabels : Option (List (String × String))
deriving DecidableEq, Repr

/-- Python dict assignment `labels[k] = v` on an insertion-ordered
association list. -/
def dictSet (l : List (String × String)) (k v : String) : List (String × String) :=
  if l.any (fun p => p.1 = k) then l.map (fun p => if p.1 = k then (k, v) else p)
  else l ++ [(k, v)]

/-- One iteration of the `for i, value in enumerate(data)` loop of
`send_to_prometheus` (app.py:225-237): a numeric header sets its gauge when
`float(value)` succeeds and is skipped on `ValueError`; a text header is
recorded in the local `labels` dict. -/
def processPair (acc : Gauges × List (String × String)) (p : String × Value) :
    Gauges × List (String × String) :=
  if p.1 ∈ NUMERIC_METRICS then
    match floatConv p.2 with
    | some q => (setGauge acc.1 p.1 q, acc.2)
    | none => acc
  else if p.1 ∈ TEXT_LABELS then
    (acc.1, dictSet acc.2 p.1 (pyStr p.2))
  else acc

/-- The whole enumerate loop over the row. -/
def processRow (L : List (String × Value)) (acc : Gauges × List (String × String)) :
    Gauges × List (String × String) :=
  L.foldl processPair acc

/-- The header/value pairs visited by `enumerate(data)` with
`header = HEADERS[i]` (a row longer than `HEADERS` would raise `IndexError`
in Python; rows in this program have exactly `HEADERS.length` entries). -/
def zipRow (data : List Value) : List (String × Value) := HEADERS.zip data

/-- `send_to_prometheus` (app.py:221-240) on its success path: updates the
numeric gauges from the row, then sets the `sustainability_info` gauge with
the collected labels.  This total function describes the call only for rows
on which it does not raise; `send_to_prometheus_checked` below models the
error paths as well and agrees with this one (wrapped in `.ok`) exactly on
the non-raising rows. -/
def send_to_prometheus (st : PromState) (data : List Value) : PromState :=
  let acc := processRow (zipRow data) (st.gauges, [])
  { gauges := acc.1, infoLabels := some acc.2 }

/-- The validation `prometheus_client` performs inside
`info_metric.labels(**labels)`: the keyword names must be exactly the
declared `labelnames` (`TEXT_LABELS`), as a set; any missing or extra name
raises `ValueError`. -/
def labelsCoverCheck (labels : List (String × String)) : Bool :=
  TEXT_LABELS.all (fun n => labels.any (fun p => p.1 = n))
    && labels.all (fun p => p.1 ∈ TEXT_LABELS)

/-- `send_to_prometheus` (app.py:221-240) with its exception behaviour: a
row longer than `HEADERS` raises `IndexError` at `HEADERS[i]` after the
first `HEADERS.length` values were processed, and a row whose collected
labels do not cover all declared label names makes
`info_metric.labels(**labels)` (app.py:240) raise `ValueError` — in both
cases after the numeric gauges were already updated and without touching
the info gauge, which the `.error` payload (the registry state at the raise
point) records.  The exception is uncaught inside the function. -/
def send_to_prometheus_checked (st : PromState) (data : List Value) :
    Except PromState PromState :=
  if HEADERS.length < data.length then
    .error { gauges := (processRow (zipRow data) (st.gauges, [])).1,
             infoLabels := st.infoLabels }
  else if labelsCoverCheck (processRow (zipRow data) (st.gauges, [])).2 then
    .ok { gauges := (processRow (zipRow data) (st.gauges, [])).1,
          infoLabels := some (processRow (zipRow data) (st.gauges, [])).2 }
  else
    .error { gauges := (processRow (zipRow data) (st.gauges, [])).1,
             infoLabels := st.infoLabels }

/-- A full-width row (one entry per header) whose `duration` position holds
the unconvertible string `"abc"`. -/
def unconvertibleRow : List Value :=
  [.str "t", .str "codecarbon", .str "r", .str "abc", .num 1, .num 2, .num 3,
   .num 4, .num 5, .num 6, .num 7, .num 8, .num 9, .str "India", .str "IN",
   .str "KA", .str "N", .str "N", .str "N/A", .str "Linux", .str "3.11",
   .num 8, .str "x86", .str "i7", .num 0, .str "N/A", .str "Unknown",
   .num 77, .num 10, .num 16, .str "RAM", .str "machine"]

/-- The CSV target: whether writes are permitted (an unwritable target makes
`open` raise, e.g. `PermissionError`) and the file content as rows, `none`
while the file does not exist. -/
structure FileSys where
  writable : Bool
  file : Option (List (List Value))
deriving DecidableEq, Repr

/-- The header row written for a newly created file (app.py:214). -/
def headerRow : List Value := HEADERS.map Value.str

/-- `save_to_csv` (app.py:206-219): create the file with the header row if
absent, then append the data row; an unwritable target raises. -/
def save_to_csv (fs : FileSys) (data : List Value) : Except Unit FileSys :=
  if fs.writable = false then .error ()
  else
    let rows := match fs.file with
      | none => [headerRow]
      | some rows => rows
    .ok { fs with file := some (rows ++ [data]) }

/-- Repeated `save_to_csv` calls, stopping at the first raised error. -/
def writeAll (rs : List (List Value)) (fs : FileSys) : Except Unit FileSys :=
  match rs with
  | [] => .ok fs
  | r :: rest =>
    match save_to_csv fs r with
    | .error e => .error e
    | .ok fs' => writeAll rest fs'

/-- The nine-tuple returned by `get_power_metrics` (app.py:204), in the
source's return order. -/
structure PowerMetrics where
  cpu_power : ℚ
  gpu_power : ℚ
  ram_power : ℚ
  cpu_energy : ℚ
  gpu_energy : ℚ
  ram_energy : ℚ
  energy_consumed : ℚ
  emissions : ℚ
  emissions_rate : ℚ
deriving DecidableEq, Repr

/-- `get_power_metrics` (app.py:177-204).  `cpu_usage` is the sampled CPU
percentage, `nvmlPowerUsage` the NVML milliwatt reading (`.error` when the
NVML call raises), `ram_used_bytes` the used-RAM figure. -/
def get_power_metrics (cpu_usage : ℚ) (gpu_available : Bool)
    (nvmlPowerUsage : Except Unit ℚ) (ram_used_bytes : ℚ) : PowerMetrics :=
  let cpu_power := (cpu_usage / 100) * CPU_TDP_WATTS
  let gpu_power : ℚ :=
    if gpu_available then
      match nvmlPowerUsage with
      | .ok mw => mw / 1000
      | .error _ => 0
    else 0
  let ram_power := ram_used_bytes / (1024 ^ 3 : ℚ) * RAM_WATTS_PER_GB
  let duration_hours : ℚ := 1 / 3600
  let cpu_energy := (cpu_power * duration_hours) / 1000
  let gpu_energy := (gpu_power * duration_hours) / 1000
  let ram_energy := (ram_power * duration_hours) / 1000
  let energy_consumed := cpu_energy + gpu_energy + ram_energy
  let emissions := energy_consumed * GRID_CARBON_FACTOR / 1000
  let emissions_rate := emissions / 1
  ⟨cpu_power, gpu_power, ram_power, cpu_energy, gpu_energy, ram_energy,
    energy_consumed, emissions, emissions_rate⟩

/-- The static facts gathered once before the loop (app.py:254-256).
Latitude and longitude arrive either as numbers or as the string
sentinel, hence `Value`. -/
structure StaticInfo where
  cloud_provider : String
  cloud_region : String
  country_name : String
  country_iso_code : String
  region : String
  latitude : Value
  longitude : Value
  cpu_model : String
  cpu_count : ℚ
  cpu_name : String
  gpu_model : String
  gpu_count : ℚ
  gpu_name : String
  ram_total_size : ℚ
  ram_name : String
  os_info : String
  python_version : String
deriving DecidableEq, Repr

/-- The per-tick inputs of the loop body (app.py:260-264). -/
structure TickInput where
  timestamp : String
  run_id : String
  pm : PowerMetrics
deriving DecidableEq, Repr

/-- The `data` row built each tick (app.py:265-270), in the source's order:
the starred `power_metrics` tuple inserts the nine estimator outputs in
return order after `duration`. -/
def build_data (si : StaticInfo) (t : TickInput) : List Value :=
  [.str t.timestamp, .str PROJECT_NAME, .str t.run_id, .num 1,
   .num t.pm.cpu_power, .num t.pm.gpu_power, .num t.pm.ram_power,
   .num t.pm.cpu_energy, .num t.pm.gpu_energy, .num t.pm.ram_energy,
   .num t.pm.energy_consumed, .num t.pm.emissions, .num t.pm.emissions_rate,
   .str si.country_name, .str si.country_iso_code, .str si.region,
   .str (if si.cloud_provider ≠ "N" then "Y" else "N"),
   .str si.cloud_provider, .str si.cloud_region, .str si.os_info,
   .str si.python_version, .num si.cpu_count, .str si.cpu_model, .str si.cpu_name,
   .num si.gpu_count, .str si.gpu_model, .str si.gpu_name,
   si.longitude, si.latitude, .num si.ram_total_size, .str si.ram_name,
   .str "machine"]

/-- The mutable state the loop body touches: the CSV target and the
registry. -/
structure LoopState where
  fs : FileSys
  prom : PromState
deriving DecidableEq, Repr

/-- One tick of the `while True` body (app.py:259-278), parameterised by the
`write_to_file` flag.  Only `KeyboardInterrupt` is caught around the loop
(app.py:279), so a raised CSV write error ends the loop: the second
component is `true` when the tick raised, and in that case
`send_to_prometheus` (which runs after `save_to_csv`) was never reached. -/
def tickWith (wtf : Bool) (si : StaticInfo) (s : LoopState) (t : TickInput) :
    LoopState × Bool :=
  let data := build_data si t
  if wtf then
    match save_to_csv s.fs data with
    | .error _ => (s, true)
    | .ok fs' => (⟨fs', send_to_prometheus s.prom data⟩, false)
  else (⟨s.fs, send_to_prometheus s.prom data⟩, false)

/-- The loop over a finite schedule of ticks; an uncaught exception stops it
with the state at the raise point. -/
def runLoopWith (wtf : Bool) (si : StaticInfo) : List TickInput → LoopState → LoopState × Bool
  | [], s => (s, false)
  | t :: ts, s =>
    match tickWith wtf si s t with
    | (s', false) => runLoopWith wtf si ts s'
    | (s', true) => (s', true)

/-- The loop as shipped: `write_to_file` has its module value `False`. -/
def runLoop (si : StaticInfo) (ts : List TickInput) (s : LoopState) : LoopState × Bool :=
  runLoopWith write_to_file si ts s

/-! ## `src/Process based/main.py`: the power-probe chain -/

/-- The platform facts and command outputs the probe chain consults.
`raplReads` holds the successive contents the `energy_uj` file would yield,
one entry per read (the counter is cumulative, so successive reads one
second apart give successive entries). -/
structure PowerEnv where
  raplExists : Bool
  raplReads : List String
  ipmitoolAvail : Bool
  ipmitoolStdout : String
  powermetricsAvail : Bool
  powermetricsStdout : String
deriving DecidableEq, Repr

/-- `float(line.split(':')[1].strip().split()[0])` (main.py:21,23,25);
`none` models the `IndexError`/`ValueError` cases. -/
def extractPowerValue (line : String) : Option ℚ :=
  match pySplit ':' line with
  | _ :: field :: _ =>
    match pySplitWs (pyStrip field) with
    | w :: _ => pyFloat w
    | [] => none
  | _ => none

/-- `get_total_power` (main.py:6-35): run `powermetrics`, scan the stdout
lines for the three power figures (an `elif` chain, each matching line
overwriting its figure), and return `(cpu, gpu, ane, total)` in milliwatts;
any parse error is caught and yields `None`. -/
def get_total_power (env : PowerEnv) : Option (ℚ × ℚ × ℚ × ℚ) :=
  if env.powermetricsAvail = false then none
  else
    let step : Except Unit (ℚ × ℚ × ℚ) → String → Except Unit (ℚ × ℚ × ℚ) :=
      fun acc line =>
        match acc with
        | .error e => .error e
        | .ok (c, g, a) =>
          if strContains line "CPU Power" then
            match extractPowerValue line with
            | some v => .ok (v, g, a)
            | none => .error ()
          else if strContains line "GPU Power" then
            match extractPowerValue line with
            | some v => .ok (c, v, a)
            | none => .error ()
          else if strContains line "ANE Power" then
            match extractPowerValue line with
            | some v => .ok (c, g, v)
            | none => .error ()
          else .ok (c, g, a)
    match (pySplit '\n' env.powermetricsStdout).foldl step (.ok (0, 0, 0)) with
    | .error _ => none
    | .ok (c, g, a) => some (c, g, a, c + g + a)

/-- The `for line in result.stdout.split("\n")` loop of the `ipmitool`
branch (main.py:58-61): the first line containing "Power" is committed to;
its second pipe-delimited field is parsed and returned, and an
`IndexError`/`ValueError` there is caught by the enclosing handler and
yields `None`.  A scan with no matching line falls through to `None`. -/
def ipmiScan : List String → Option ℚ
  | [] => none
  | line :: rest =>
    if strContains line "Power" then
      match pySplit '|' line with
      | _ :: p1 :: _ =>
        match pyFloat (pyStrip p1) with
        | some v => some (round2 v)
        | none => none
      | _ => none
    else ipmiScan rest

/-- `get_power_consumption` (main.py:48-69).  The `if`/`elif` chain selects
the first *present* source (RAPL file, then `ipmitool`, then
`powermetrics`); the whole body sits in one `try` whose handler returns
`None`, and the trailing `return None` covers every fall-through. -/
def get_power_consumption (env : PowerEnv) : Option ℚ :=
  if env.raplExists then
    match env.raplReads.head? with
    | none => none
    | some content =>
      match pyInt content with
      | none => none
      | some uj => some (round2 ((uj : ℚ) / 1000000))
  else if env.ipmitoolAvail then
    ipmiScan (pySplit '\n' env.ipmitoolStdout)
  else if env.powermetricsAvail then
    match get_total_power env with
    | some (_, _, _, total) => some (round2 (total / 1000))
    | none => none
  else none

/-- Modelled from the spec: "Platform energy-counter file (cumulative
microjoules, read twice one second apart, delta converted to watts)".  The
source (main.py:51-55) contains no second read and no delta; this
definition renders the spec's words only, for comparison with
`get_power_consumption`. -/
def raplDeltaWatts (env : PowerEnv) : Option ℚ :=
  match env.raplReads with
  | r1 :: r2 :: _ =>
    match pyInt r1, pyInt r2 with
    | some a, some b => some ((((b - a : ℤ) : ℚ)) / 1000000)
    | _, _ => none
  | _ => none

/-! ## `src/docker_app.py`: Kubernetes metrics -/

/-- `len(result.stdout.strip().split("\n")) if result.stdout.strip() else 0`
(docker_app.py:56,59). -/
def countLines (stdout : String) : ℕ :=
  if pyStrip stdout = "" then 0 else (pySplit '\n' (pyStrip stdout)).length

/-- `get_kubernetes_metrics` (docker_app.py:52-64): pod and node counts from
the two `kubectl` outputs, and the pods-per-node utilisation, `0` when the
node count is zero (Python truthiness guard); a raised error in the branch
is caught by the bare `except` and yields `(0, 0, 0)`. -/
def get_kubernetes_metrics (kubectlOk : Bool) (podsStdout nodesStdout : String) :
    ℕ × ℕ × ℚ :=
  if kubectlOk then
    let total_pods := countLines podsStdout
    let total_nodes := countLines nodesStdout
    let node_utilization : ℚ :=
      if total_nodes ≠ 0 then (total_pods : ℚ) / (total_nodes : ℚ) else 0
    (total_pods, total_nodes, node_utilization)
  else (0, 0, 0)

/-! ## Registry-sink lemmas -/

/-- The column names are pairwise distinct. -/
theorem headers_nodup : HEADERS.Nodup := by decide

/-- The keys of a zip form a sublist of the first list. -/
theorem map_fst_zip_sublist {α β : Type} :
    ∀ (l₁ : List α) (l₂ : List β), List.Sublist ((l₁.zip l₂).map Prod.fst) l₁
  | [], _ => by simp
  | _ :: _, [] => by simp
  | a :: l₁, b :: l₂ => by
    simpa using List.Sublist.cons₂ a (map_fst_zip_sublist l₁ l₂)

/-- Each header occurs at most once among the pairs visited for a row. -/
theorem zipRow_keys_nodup (data : List Value) : ((zipRow data).map Prod.fst).Nodup :=
  headers_nodup.sublist (map_fst_zip_sublist HEADERS data)

/-- Setting one numeric gauge reads back at every numeric-metric name as
expected. -/
theorem gaugeValue_setGauge (g : Gauges) (n : String) (v : ℚ) (m : String)
    (hn : n ∈ NUMERIC_METRICS) (hm : m ∈ NUMERIC_METRICS) :
    gaugeValue (setGauge g n v) m = if m = n then v else gaugeValue g m := by
  simp only [NUMERIC_METRICS, List.mem_cons, List.not_mem_nil, or_false] at hn hm
  rcases hn with rfl | rfl | rfl | rfl | rfl | rfl | rfl | rfl | rfl | rfl | rfl | rfl | rfl <;>
  rcases hm with rfl | rfl | rfl | rfl | rfl | rfl | rfl | rfl | rfl | rfl | rfl | rfl | rfl <;>
    simp [setGauge, gaugeValue]

/-- The value a gauge holds after one visited pair. -/
theorem gaugeValue_processPair (acc : Gauges × List (String × String)) (h : String)
    (v : Value) (m : String) (hm : m ∈ NUMERIC_METRICS) :
    gaugeValue (processPair acc (h, v)).1 m =
      if m = h then
        (match floatConv v with | some q => q | none => gaugeValue acc.1 m)
      else gaugeValue acc.1 m := by
  by_cases hn : h ∈ NUMERIC_METRICS
  · rcases hcv : floatConv v with _ | q
    · simp only [processPair, if_pos hn, hcv]
      rw [ite_self]
    · simp only [processPair, if_pos hn, hcv]
      exact gaugeValue_setGauge acc.1 h q m hn hm
  · have hmh : m ≠ h := fun e => hn (e ▸ hm)
    rw [if_neg hmh]
    simp only [processPair, if_neg hn]
    split
    · rfl
    · rfl

/-- The last-write-wins value a row leaves in the gauge named `m`: the
accumulator is replaced whenever a visited pair has header `m` and a
convertible value, exactly mirroring the skip-on-`ValueError` update. -/
def lastParsed : List (String × Value) → String → ℚ → ℚ
  | [], _, d => d
  | (h, v) :: t, m, d =>
    lastParsed t m
      (if m = h then (match floatConv v with | some q => q | none => d) else d)

/-- Processing a pair list updates each numeric gauge to its last-write
value. -/
theorem gaugeValue_processRow (L : List (String × Value))
    (acc : Gauges × List (String × String)) (m : String) (hm : m ∈ NUMERIC_METRICS) :
    gaugeValue (processRow L acc).1 m = lastParsed L m (gaugeValue acc.1 m) := by
  induction L generalizing acc with
  | nil => rfl
  | cons p t ih =>
    obtain ⟨h, v⟩ := p
    have step : processRow ((h, v) :: t) acc = processRow t (processPair acc (h, v)) := rfl
    rw [step, ih (processPair acc (h, v)), lastParsed, gaugeValue_processPair acc h v m hm]

/-- A header absent from the pair list leaves its accumulator untouched. -/
theorem lastParsed_of_not_mem (L : List (String × Value)) (m : String) (d : ℚ)
    (hm : m ∉ L.map Prod.fst) : lastParsed L m d = d := by
  induction L generalizing d with
  | nil => rfl
  | cons p t ih =>
    obtain ⟨h, v⟩ := p
    simp only [List.map_cons, List.mem_cons, not_or] at hm
    rw [lastParsed, if_neg hm.1]
    exact ih _ hm.2

/-- With pairwise-distinct headers, the last-write value is determined by
`find?`. -/
theorem lastParsed_eq_find (L : List (String × Value)) (m : String) (d : ℚ)
    (hnd : (L.map Prod.fst).Nodup) :
    lastParsed L m d =
      match L.find? (fun p => p.1 == m) with
      | some p => (match floatConv p.2 with | some q => q | none => d)
      | none => d := by
  induction L generalizing d with
  | nil => rfl
  | cons p t ih =>
    obtain ⟨h, v⟩ := p
    simp only [List.map_cons, List.nodup_cons] at hnd
    by_cases he : h = m
    · subst he
      rw [List.find?_cons_of_pos _ (by simp)]
      rw [lastParsed, if_pos rfl]
      exact lastParsed_of_not_mem t h _ hnd.1
    · rw [List.find?_cons_of_neg _ (by simp [he])]
      rw [lastParsed, if_neg (fun e => he e.symm)]
      exact ih _ hnd.2

/-- The labels collected from a row do not depend on the gauge state. -/
theorem processRow_labels_const (L : List (String × Value)) (g g' : Gauges)
    (l : List (String × String)) :
    (processRow L (g, l)).2 = (processRow L (g', l)).2 := by
  induction L generalizing g g' l with
  | nil => rfl
  | cons p t ih =>
    obtain ⟨h, v⟩ := p
    have e2 : (processPair (g, l) (h, v)).2 = (processPair (g', l) (h, v)).2 := by
      simp only [processPair]
      split_ifs <;> try rfl
      cases floatConv v <;> rfl
    have step : ∀ (g₀ : Gauges) (l₀ : List (String × String)),
        processRow ((h, v) :: t) (g₀, l₀) = processRow t (processPair (g₀, l₀) (h, v)) :=
      fun _ _ => rfl
    rw [step, step]
    calc (processRow t (processPair (g, l) (h, v))).2
        = (processRow t ((processPair (g, l) (h, v)).1, (processPair (g, l) (h, v)).2)).2 := rfl
      _ = (processRow t ((processPair (g', l) (h, v)).1, (processPair (g, l) (h, v)).2)).2 :=
          ih _ _ _
      _ = (processRow t (processPair (g', l) (h, v))).2 := by rw [e2]

/-! ## Claim theorems -/

/-- C5: every constructed record satisfies
`energy_consumed = cpu_energy + gpu_energy + ram_energy` within floating
tolerance `1e-9`, for any combination of probe/estimate outputs with
non-negative power inputs (app.py:194-198 computes `energy_consumed` as
exactly that sum). -/
theorem energy_consumed_is_component_sum (cpu_usage : ℚ) (gpu_available : Bool)
    (nvmlPowerUsage : Except Unit ℚ) (ram_used_bytes : ℚ)
    (hcpu : 0 ≤ cpu_usage) (hram : 0 ≤ ram_used_bytes) :
    |(get_power_metrics cpu_usage gpu_available nvmlPowerUsage ram_used_bytes).energy_consumed -
      ((get_power_metrics cpu_usage gpu_available nvmlPowerUsage ram_used_bytes).cpu_energy +
       (get_power_metrics cpu_usage gpu_available nvmlPowerUsage ram_used_bytes).gpu_energy +
       (get_power_metrics cpu_usage gpu_available nvmlPowerUsage ram_used_bytes).ram_energy)| ≤
      1 / 1000000000 := by
  simp only [get_power_metrics]
  rw [sub_self, abs_zero]
  norm_num

/-- Witness for C5 at the spec's end-to-end scenario inputs
(`cpuPercent = 50`, no GPU, `ramUsedGB = 4`). -/
theorem energy_consumed_is_component_sum_witness :
    |(get_power_metrics 50 false (.error ()) (4 * 1024 ^ 3)).energy_consumed -
      ((get_power_metrics 50 false (.error ()) (4 * 1024 ^ 3)).cpu_energy +
       (get_power_metrics 50 false (.error ()) (4 * 1024 ^ 3)).gpu_energy +
       (get_power_metrics 50 false (.error ()) (4 * 1024 ^ 3)).ram_energy)| ≤
      1 / 1000000000 :=
  energy_consumed_is_component_sum 50 false (.error ()) (4 * 1024 ^ 3)
    (by decide) (by decide)

/-- C6: `cpu_power` equals `(cpuPercent/100) * CPU_TDP_WATTS` (app.py:180),
is monotonically non-decreasing on `[0, 100]`, vanishes at 0, and reaches
the configured 65 W constant at 100. -/
theorem cpu_power_estimator_properties :
    (∀ (u : ℚ) (gav : Bool) (r : Except Unit ℚ) (ram : ℚ),
      (get_power_metrics u gav r ram).cpu_power = u / 100 * CPU_TDP_WATTS)
    ∧ (∀ (u₁ u₂ : ℚ) (gav : Bool) (r : Except Unit ℚ) (ram : ℚ),
        0 ≤ u₁ → u₁ ≤ u₂ → u₂ ≤ 100 →
        (get_power_metrics u₁ gav r ram).cpu_power ≤
          (get_power_metrics u₂ gav r ram).cpu_power)
    ∧ (∀ (gav : Bool) (r : Except Unit ℚ) (ram : ℚ),
        (get_power_metrics 0 gav r ram).cpu_power = 0)
    ∧ (∀ (gav : Bool) (r : Except Unit ℚ) (ram : ℚ),
        (get_power_metrics 100 gav r ram).cpu_power = CPU_TDP_WATTS)
    ∧ CPU_TDP_WATTS = 65 := by
  refine ⟨fun u gav r ram => rfl, ?_, ?_, ?_, rfl⟩
  · intro u₁ u₂ gav r ram h0 h12 h100
    simp only [get_power_metrics, CPU_TDP_WATTS]
    linarith
  · intro gav r ram
    simp [get_power_metrics]
  · intro gav r ram
    simp [get_power_metrics, CPU_TDP_WATTS]

/-- Witness for C6: monotonicity applied at 30 and 60 percent. -/
theorem cpu_power_estimator_properties_witness :
    (get_power_metrics 30 false (.error ()) 0).cpu_power ≤
      (get_power_metrics 60 false (.error ()) 0).cpu_power :=
  cpu_power_estimator_properties.2.1 30 60 false (.error ()) 0
    (by decide) (by decide) (by decide)

/-- C10: `get_kubernetes_metrics` (docker_app.py:52-64) never divides by
zero: the utilisation is a total function that is exactly 0 when the node
count is zero and `total_pods / total_nodes` otherwise. -/
theorem kubernetes_node_utilization_safe (kubectlOk : Bool)
    (podsStdout nodesStdout : String) :
    ((get_kubernetes_metrics kubectlOk podsStdout nodesStdout).2.1 = 0 →
      (get_kubernetes_metrics kubectlOk podsStdout nodesStdout).2.2 = 0)
    ∧ ((get_kubernetes_metrics kubectlOk podsStdout nodesStdout).2.1 ≠ 0 →
      (get_kubernetes_metrics kubectlOk podsStdout nodesStdout).2.2 =
        ((get_kubernetes_metrics kubectlOk podsStdout nodesStdout).1 : ℚ) /
          ((get_kubernetes_metrics kubectlOk podsStdout nodesStdout).2.1 : ℚ)) := by
  cases kubectlOk with
  | false => simp [get_kubernetes_metrics]
  | true =>
    simp only [get_kubernetes_metrics, if_pos]
    constructor
    · intro h
      simp [h]
    · intro h
      simp [h]

/-- Witness for C10: empty `kubectl get nodes` output gives zero nodes and
utilisation exactly 0. -/
theorem kubernetes_node_utilization_safe_witness :
    (get_kubernetes_metrics true "pod-a\npod-b\npod-c" "").2.2 = 0 :=
  (kubernetes_node_utilization_safe true "pod-a\npod-b\npod-c" "").1 (by decide)

set_option maxHeartbeats 2000000 in
/-- C8: for every pair of records A and B (rows built by the loop body),
publishing A then B to the registry sink leaves exactly the state that
publishing B alone from any prior state leaves: every numeric gauge holds
B's value and the metadata labels are B's — overwrite, not accumulation
(app.py:221-240 `set`s each gauge and rebuilds the label dict per call). -/
theorem registry_publish_overwrites (stA stB : PromState) (siA siB : StaticInfo)
    (tA tB : TickInput) :
    send_to_prometheus (send_to_prometheus stA (build_data siA tA)) (build_data siB tB)
      = send_to_prometheus stB (build_data siB tB) := rfl

/-- Keys of a zip over lists of equal length are exactly the first list. -/
theorem map_fst_zip_of_length_eq {α β : Type} :
    ∀ (l₁ : List α) (l₂ : List β), l₁.length = l₂.length →
      (l₁.zip l₂).map Prod.fst = l₁
  | [], [], _ => rfl
  | [], _ :: _, h => by simp at h
  | _ :: _, [], h => by simp at h
  | a :: t₁, b :: t₂, h => by
    have ht : t₁.length = t₂.length := by simpa using h
    simp [map_fst_zip_of_length_eq t₁ t₂ ht]

/-- Every declared label name is a column. -/
theorem text_labels_sub_headers : ∀ n ∈ TEXT_LABELS, n ∈ HEADERS := by decide

/-- The label names and the numeric-metric names are disjoint. -/
theorem text_labels_not_numeric : ∀ n ∈ TEXT_LABELS, n ∉ NUMERIC_METRICS := by decide

/-- After a dict assignment the assigned key is present. -/
theorem dictSet_any_self (l : List (String × String)) (k v : String) :
    (dictSet l k v).any (fun p => p.1 = k) = true := by
  unfold dictSet
  split_ifs with h
  · rw [List.any_eq_true] at h ⊢
    obtain ⟨p, hp, hpk⟩ := h
    simp only [decide_eq_true_eq] at hpk
    exact ⟨(k, v), List.mem_map.mpr ⟨p, hp, by simp [hpk]⟩, by simp⟩
  · rw [List.any_eq_true]
    exact ⟨(k, v), by simp, by simp⟩

/-- A dict assignment never removes a key. -/
theorem dictSet_any_mono (l : List (String × String)) (k v n : String)
    (h : l.any (fun p => p.1 = n) = true) :
    (dictSet l k v).any (fun p => p.1 = n) = true := by
  unfold dictSet
  split_ifs with hc
  · rw [List.any_eq_true] at h ⊢
    obtain ⟨p, hp, hpn⟩ := h
    simp only [decide_eq_true_eq] at hpn
    by_cases hpk : p.1 = k
    · refine ⟨(k, v), List.mem_map.mpr ⟨p, hp, by simp [hpk]⟩, ?_⟩
      simp [← hpk, hpn]
    · exact ⟨p, List.mem_map.mpr ⟨p, hp, by simp [hpk]⟩, by simp [hpn]⟩
  · rw [List.any_eq_true] at h ⊢
    obtain ⟨p, hp, hpn⟩ := h
    exact ⟨p, List.mem_append_left _ hp, hpn⟩

/-- A dict assignment with a declared key keeps every key declared. -/
theorem dictSet_keys_sub (l : List (String × String)) (k v : String)
    (hk : k ∈ TEXT_LABELS) (hl : ∀ p ∈ l, p.1 ∈ TEXT_LABELS) :
    ∀ p ∈ dictSet l k v, p.1 ∈ TEXT_LABELS := by
  intro p hp
  unfold dictSet at hp
  split_ifs at hp with hc
  · obtain ⟨q, hq, hqe⟩ := List.mem_map.mp hp
    by_cases hqk : q.1 = k
    · rw [← hqe]
      simpa [hqk] using hk
    · rw [← hqe]
      simpa [hqk] using hl q hq
  · rcases List.mem_append.mp hp with hin | hsing
    · exact hl p hin
    · rw [List.mem_singleton.mp hsing]
      exact hk

/-- Every label the row loop collects carries a declared name. -/
theorem processRow_labels_sub (L : List (String × Value)) :
    ∀ (g : Gauges) (l : List (String × String)),
      (∀ p ∈ l, p.1 ∈ TEXT_LABELS) →
      ∀ p ∈ (processRow L (g, l)).2, p.1 ∈ TEXT_LABELS := by
  induction L with
  | nil => intro g l hl; exact hl
  | cons hd t ih =>
    intro g l hl
    obtain ⟨h, v⟩ := hd
    have hstep : processRow ((h, v) :: t) (g, l)
        = processRow t (processPair (g, l) (h, v)) := rfl
    rw [hstep]
    have hinv : ∀ p ∈ (processPair (g, l) (h, v)).2, p.1 ∈ TEXT_LABELS := by
      simp only [processPair]
      split_ifs with h1 h2
      · cases hcv : floatConv v <;> simpa [hcv] using hl
      · exact dictSet_keys_sub l h (pyStr v) h2 hl
      · exact hl
    have heta : processPair (g, l) (h, v)
        = ((processPair (g, l) (h, v)).1, (processPair (g, l) (h, v)).2) := rfl
    rw [heta]
    exact ih _ _ hinv

/-- The row loop never drops a collected label key. -/
theorem processRow_any_key_mono (L : List (String × Value)) :
    ∀ (g : Gauges) (l : List (String × String)) (n : String),
      l.any (fun p => p.1 = n) = true →
      ((processRow L (g, l)).2).any (fun p => p.1 = n) = true := by
  induction L with
  | nil => intro g l n h; exact h
  | cons hd t ih =>
    intro g l n hin
    obtain ⟨h, v⟩ := hd
    have hstep : processRow ((h, v) :: t) (g, l)
        = processRow t (processPair (g, l) (h, v)) := rfl
    rw [hstep]
    have hkeep : ((processPair (g, l) (h, v)).2).any (fun p => p.1 = n) = true := by
      simp only [processPair]
      split_ifs with h1 h2
      · cases hcv : floatConv v <;> simpa [hcv] using hin
      · exact dictSet_any_mono l h (pyStr v) n hin
      · exact hin
    have heta : processPair (g, l) (h, v)
        = ((processPair (g, l) (h, v)).1, (processPair (g, l) (h, v)).2) := rfl
    rw [heta]
    exact ih _ _ _ hkeep

/-- Visiting a pair whose header is a declared label records that label. -/
theorem processRow_adds_key (L : List (String × Value)) :
    ∀ (g : Gauges) (l : List (String × String)) (n : String) (w : Value),
      (n, w) ∈ L → n ∈ TEXT_LABELS →
      ((processRow L (g, l)).2).any (fun p => p.1 = n) = true := by
  induction L with
  | nil =>
    intro g l n w hmem _
    exact absurd hmem (List.not_mem_nil _)
  | cons hd t ih =>
    intro g l n w hmem hn
    obtain ⟨h, v⟩ := hd
    have hstep : processRow ((h, v) :: t) (g, l)
        = processRow t (processPair (g, l) (h, v)) := rfl
    rw [hstep]
    have heta : processPair (g, l) (h, v)
        = ((processPair (g, l) (h, v)).1, (processPair (g, l) (h, v)).2) := rfl
    rcases List.mem_cons.mp hmem with heq | hin
    · injection heq with h1 h2
      subst h1
      subst h2
      have hnum : n ∉ NUMERIC_METRICS := text_labels_not_numeric n hn
      have hkey : ((processPair (g, l) (n, w)).2).any (fun p => p.1 = n) = true := by
        simp only [processPair, if_neg hnum, if_pos hn]
        exact dictSet_any_self l n (pyStr w)
      rw [heta]
      exact processRow_any_key_mono t _ _ n hkey
    · rw [heta]
      exact ih _ _ n w hin hn

/-- A full-width row collects exactly the declared label names, so the
`info_metric.labels` validation passes. -/
theorem full_row_labels_cover (data : List Value) (hlen : data.length = HEADERS.length)
    (g : Gauges) :
    labelsCoverCheck (processRow (zipRow data) (g, [])).2 = true := by
  unfold labelsCoverCheck
  rw [Bool.and_eq_true]
  constructor
  · rw [List.all_eq_true]
    intro n hn
    have hmem : n ∈ (zipRow data).map Prod.fst := by
      rw [zipRow, map_fst_zip_of_length_eq HEADERS data hlen.symm]
      exact text_labels_sub_headers n hn
    obtain ⟨q, hq, hqe⟩ := List.mem_map.mp hmem
    obtain ⟨n', w⟩ := q
    cases hqe
    exact processRow_adds_key (zipRow data) g [] n' w hq hn
  · rw [List.all_eq_true]
    intro p hp
    have hsub := processRow_labels_sub (zipRow data) g []
      (by intro p hp; exact absurd hp (List.not_mem_nil _)) p hp
    simpa using hsub

/-- C9 counterexample: a short row (here 4 entries) whose `duration` value
is unconvertible does NOT leave the sink exception-free: the loop skips the
`duration` gauge, but `info_metric.labels(**labels)` then raises
`ValueError` because the collected labels (only `project_name`) do not
cover the 17 declared label names — the error state shows the gauges kept
and the info gauge never updated, refuting "raises no exception" and
"still updates the metadata label gauge" over all input rows. -/
theorem registry_short_row_raises :
    send_to_prometheus_checked ⟨⟨7, 0, 0, 0, 0, 0, 0, 0, 0, 0, 0, 0, 0⟩, none⟩
        [.str "t", .str "codecarbon", .str "r", .str "abc"]
      = .error ⟨⟨7, 0, 0, 0, 0, 0, 0, 0, 0, 0, 0, 0, 0⟩, none⟩
    ∧ (zipRow [.str "t", .str "codecarbon", .str "r", .str "abc"]).find?
        (fun p => p.1 == "duration") = some ("duration", .str "abc")
    ∧ floatConv (.str "abc") = none
    ∧ "duration" ∈ NUMERIC_METRICS := by decide

/-- C9 corrected: for a full-width row (one entry per header, as every row
built by the loop is), an unconvertible value at a numeric-metric position
raises no exception — the `ValueError` from `float` is caught at
app.py:232-233 and the `labels` validation passes — and the sink leaves
that one gauge at its previous value while still updating every other
numeric gauge with a convertible value and the metadata label gauge from
the same row; a row that does not populate every declared text label (any
shorter row) instead makes `info_metric.labels` raise with the numeric
gauges already updated and the info gauge untouched. -/
theorem registry_skips_unconvertible_full_row (st : PromState) (data : List Value)
    (hlen : data.length = HEADERS.length)
    (m₀ : String) (v₀ : Value)
    (hm₀ : m₀ ∈ NUMERIC_METRICS)
    (hfind : (zipRow data).find? (fun p => p.1 == m₀) = some (m₀, v₀))
    (hfail : floatConv v₀ = none) :
    send_to_prometheus_checked st data = .ok (send_to_prometheus st data)
    ∧ gaugeValue (send_to_prometheus st data).gauges m₀ = gaugeValue st.gauges m₀
    ∧ (∀ (m : String) (v : Value) (q : ℚ), m ∈ NUMERIC_METRICS →
        (zipRow data).find? (fun p => p.1 == m) = some (m, v) → floatConv v = some q →
        gaugeValue (send_to_prometheus st data).gauges m = q)
    ∧ (∀ st' : PromState,
        (send_to_prometheus st data).infoLabels = (send_to_prometheus st' data).infoLabels)
    ∧ (send_to_prometheus st data).infoLabels ≠ none := by
  have hgauges : ∀ m, m ∈ NUMERIC_METRICS →
      gaugeValue (send_to_prometheus st data).gauges m
        = lastParsed (zipRow data) m (gaugeValue st.gauges m) :=
    fun m hm => gaugeValue_processRow (zipRow data) (st.gauges, []) m hm
  refine ⟨?_, ?_, ?_, ?_, ?_⟩
  · have hnlt : ¬ HEADERS.length < data.length := by omega
    unfold send_to_prometheus_checked
    rw [if_neg hnlt, if_pos (full_row_labels_cover data hlen st.gauges)]
    rfl
  · rw [hgauges m₀ hm₀, lastParsed_eq_find _ _ _ (zipRow_keys_nodup data)]
    simp only [hfind, hfail]
  · intro m v q hm hf hq
    rw [hgauges m hm, lastParsed_eq_find _ _ _ (zipRow_keys_nodup data)]
    simp only [hf, hq]
  · intro st'
    show some (processRow (zipRow data) (st.gauges, [])).2
        = some (processRow (zipRow data) (st'.gauges, [])).2
    rw [processRow_labels_const (zipRow data) st.gauges st'.gauges []]
  · intro hnone
    exact Option.noConfusion hnone

/-- Witness for C9's corrected claim: on the full-width row with `"abc"` at
the `duration` position the checked sink succeeds and agrees with the
success-path model. -/
theorem registry_skips_unconvertible_full_row_witness :
    send_to_prometheus_checked ⟨⟨7, 0, 0, 0, 0, 0, 0, 0, 0, 0, 0, 0, 0⟩, none⟩
        unconvertibleRow
      = .ok (send_to_prometheus ⟨⟨7, 0, 0, 0, 0, 0, 0, 0, 0, 0, 0, 0, 0⟩, none⟩
          unconvertibleRow) :=
  (registry_skips_unconvertible_full_row ⟨⟨7, 0, 0, 0, 0, 0, 0, 0, 0, 0, 0, 0, 0⟩, none⟩
      unconvertibleRow (by decide) "duration" (.str "abc")
      (by decide) (by decide) (by decide)).1

/-- A concrete static-info fixture (a host with no cloud and no GPU). -/
def sampleStatic : StaticInfo :=
  ⟨"N", "N/A", "India", "IN", "KA", .num 10, .num 77, "x86_64", 8, "i7", "N/A", 0,
    "Unknown", 16, "Generic RAM", "Linux-6.8", "3.11.0"⟩

/-- A concrete tick fixture at the spec's end-to-end scenario inputs. -/
def sampleTick : TickInput :=
  ⟨"2026-10-12T00:00:00", "abcd1234", get_power_metrics 50 false (.error ()) (4 * 1024 ^ 3)⟩

/-- Loop state with a writable, not-yet-created CSV target and a fresh
registry. -/
def freshState : LoopState :=
  ⟨⟨true, none⟩, ⟨⟨0, 0, 0, 0, 0, 0, 0, 0, 0, 0, 0, 0, 0⟩, none⟩⟩

/-- Loop state whose CSV target is unwritable (permission denied). -/
def lockedState : LoopState :=
  ⟨⟨false, none⟩, ⟨⟨0, 0, 0, 0, 0, 0, 0, 0, 0, 0, 0, 0, 0⟩, none⟩⟩

/-- C1 counterexample: one tick of the shipped loop publishes the record to
the metrics registry but appends nothing to the CSV log — the file stays
absent, because `write_to_file` is `False` (app.py:15, guard at
app.py:272-273), refuting "delivered to both sinks each tick". -/
theorem tick_does_not_write_csv :
    (runLoop sampleStatic [sampleTick] freshState).1.fs.file = none
    ∧ (runLoop sampleStatic [sampleTick] freshState).1.prom.infoLabels ≠ none := by
  constructor
  · rfl
  · intro h
    exact Option.noConfusion h

/-- C1 corrected: each tick publishes to the metrics registry and never to
the CSV log, because the module flag `write_to_file` is `False`; in the
`write_to_file = True` configuration with a writable target, one tick
delivers the same record to both sinks. -/
theorem tick_publishes_registry_only (si : StaticInfo) :
    write_to_file = false
    ∧ (∀ (ts : List TickInput) (s : LoopState),
        runLoop si ts s =
          (⟨s.fs, ts.foldl (fun p t => send_to_prometheus p (build_data si t)) s.prom⟩,
            false))
    ∧ (∀ (s : LoopState) (t : TickInput), s.fs.writable = true →
        tickWith true si s t =
          (⟨⟨true,
              some ((match s.fs.file with | none => [headerRow] | some rows => rows)
                ++ [build_data si t])⟩,
            send_to_prometheus s.prom (build_data si t)⟩, false)) := by
  refine ⟨rfl, ?_, ?_⟩
  · intro ts
    induction ts with
    | nil => intro s; rfl
    | cons t ts ih =>
      intro s
      exact ih ⟨s.fs, send_to_prometheus s.prom (build_data si t)⟩
  · intro s t hw
    obtain ⟨⟨w, file⟩, prom⟩ := s
    cases hw
    rfl

/-- Witness for C1's corrected claim: with the flag on and a writable fresh
target, the tick appends header and record and publishes to the
registry. -/
theorem tick_publishes_registry_only_witness :
    tickWith true sampleStatic freshState sampleTick =
      (⟨⟨true,
          some ((match freshState.fs.file with | none => [headerRow] | some rows => rows)
            ++ [build_data sampleStatic sampleTick])⟩,
        send_to_prometheus freshState.prom (build_data sampleStatic sampleTick)⟩, false) :=
  (tick_publishes_registry_only sampleStatic).2.2 freshState sampleTick rfl

/-- C2 counterexample: with the CSV sink enabled and the target unwritable,
the write failure of the first tick is not caught: the loop stops at once
with the registry exactly as before — the other sink never receives the
record and the second scheduled tick never runs, refuting
"caught at the call site, does not stop the loop, does not prevent the
other sink". -/
theorem csv_failure_stops_loop :
    runLoopWith true sampleStatic [sampleTick, sampleTick] lockedState =
      (lockedState, true) := rfl

/-- C2 corrected: only `KeyboardInterrupt` is caught around the loop
(app.py:258-280), so with the CSV sink enabled an uncaught write failure
stops the loop before `send_to_prometheus` runs for that record; in the
shipped `write_to_file = False` configuration the CSV sink is never
invoked and a tick never raises. -/
theorem csv_failure_uncaught (si : StaticInfo) :
    (∀ (s : LoopState) (t : TickInput) (ts : List TickInput), s.fs.writable = false →
        runLoopWith true si (t :: ts) s = (s, true))
    ∧ (∀ (s : LoopState) (t : TickInput), (tickWith false si s t).2 = false) := by
  constructor
  · intro s t ts hw
    obtain ⟨⟨w, file⟩, prom⟩ := s
    cases hw
    rfl
  · intro s t
    rfl

/-- Witness for C2's corrected claim at the unwritable fixture. -/
theorem csv_failure_uncaught_witness :
    runLoopWith true sampleStatic [sampleTick] lockedState = (lockedState, true) :=
  (csv_failure_uncaught sampleStatic).1 lockedState sampleTick [] rfl

/-- Appending rows to an existing file appends them in order, leaving the
prior content (and so any header already present) untouched. -/
theorem writeAll_existing (rs : List (List Value)) :
    ∀ rows₀ : List (List Value),
      writeAll rs ⟨true, some rows₀⟩ = .ok ⟨true, some (rows₀ ++ rs)⟩ := by
  induction rs with
  | nil => intro rows₀; simp [writeAll]
  | cons r rest ih =>
    intro rows₀
    have h1 : writeAll (r :: rest) ⟨true, some rows₀⟩ =
        writeAll rest ⟨true, some (rows₀ ++ [r])⟩ := rfl
    rw [h1, ih (rows₀ ++ [r])]
    simp

/-- C7 counterexample: writing N = 0 records to a fresh (absent) target
performs no write at all (app.py:211 creates the file only inside
`save_to_csv`), so the target stays absent instead of holding one header
row, refuting the claim at N = 0. -/
theorem csv_zero_records_no_header :
    writeAll [] ⟨true, none⟩ = .ok ⟨true, none⟩
    ∧ (⟨true, none⟩ : FileSys).file ≠ some [headerRow] := by
  constructor
  · rfl
  · intro h
    exact Option.noConfusion h

/-- C7 corrected: for every N ≥ 1, writing N records of schema width to a
fresh target produces exactly one header row followed by the N data rows,
each row having the header's column count; writing further records to an
existing target appends them after the existing content without rewriting
the header. -/
theorem csv_header_once_then_data (rs : List (List Value)) (hne : rs ≠ [])
    (hwidth : ∀ r ∈ rs, r.length = HEADERS.length) :
    writeAll rs ⟨true, none⟩ = .ok ⟨true, some (headerRow :: rs)⟩
    ∧ (∀ r ∈ headerRow :: rs, r.length = headerRow.length)
    ∧ (∀ (rows₀ rs₂ : List (List Value)),
        writeAll rs₂ ⟨true, some rows₀⟩ = .ok ⟨true, some (rows₀ ++ rs₂)⟩) := by
  refine ⟨?_, ?_, fun rows₀ rs₂ => writeAll_existing rs₂ rows₀⟩
  · cases rs with
    | nil => exact absurd rfl hne
    | cons r rest =>
      have h1 : writeAll (r :: rest) (⟨true, none⟩ : FileSys) =
          writeAll rest ⟨true, some [headerRow, r]⟩ := rfl
      rw [h1, writeAll_existing rest [headerRow, r]]
      rfl
  · intro r hr
    rcases List.mem_cons.mp hr with rfl | hin
    · rfl
    · rw [hwidth r hin]
      simp [headerRow]

/-- Witness for C7's corrected claim: one record (of schema width) written
to a fresh target yields header plus that record. -/
theorem csv_header_once_then_data_witness :
    writeAll [headerRow] ⟨true, none⟩ = .ok ⟨true, some (headerRow :: [headerRow])⟩ :=
  (csv_header_once_then_data [headerRow] (by decide) (by decide)).1

/-- An environment where the RAPL file is absent, `ipmitool` is present but
prints an unparsable power line, and `powermetrics` is present reporting
42000 mW. -/
def probeEnvStuck : PowerEnv :=
  ⟨false, [], true, "Total Power | bogus | Watts", true, "CPU Power: 42000 mW"⟩

/-- C3 counterexample: in `probeEnvStuck` the chain commits to the present
`ipmitool` source, whose unparsable output yields `None` without advancing
to `powermetrics`, which would have succeeded with 42 W — refuting both
"unparsable output advances to the next probe" and "None iff every
configured probe fails". -/
theorem probe_chain_no_advance :
    get_power_consumption probeEnvStuck = none
    ∧ get_total_power probeEnvStuck = some (42000, 0, 0, 42000)
    ∧ round2 (42000 / 1000) = 42 := by decide

/-- C3 corrected: an *absent* source (missing RAPL file or executable)
advances the chain, but the chain commits to the first present source:
with `ipmitool` present the result is independent of the `powermetrics`
configuration (failure yields `None` rather than advancing); with no
source present the chain returns `None`; and with only `powermetrics`
present a 42000 mW reading yields 42 W. -/
theorem probe_chain_commits_to_first_present :
    (∀ env env' : PowerEnv,
      env.raplExists = false → env.ipmitoolAvail = true →
      env'.raplExists = false → env'.ipmitoolAvail = true →
      env.ipmitoolStdout = env'.ipmitoolStdout →
      get_power_consumption env = get_power_consumption env')
    ∧ (∀ env : PowerEnv, env.raplExists = false → env.ipmitoolAvail = false →
        env.powermetricsAvail = false → get_power_consumption env = none)
    ∧ (∀ env : PowerEnv, env.raplExists = false → env.ipmitoolAvail = false →
        env.powermetricsAvail = true →
        get_total_power env = some (42000, 0, 0, 42000) →
        get_power_consumption env = some 42) := by
  refine ⟨?_, ?_, ?_⟩
  · intro env env' h1 h2 h1' h2' hs
    obtain ⟨re, rr, ia, is, pa, ps⟩ := env
    obtain ⟨re', rr', ia', is', pa', ps'⟩ := env'
    dsimp only at h1 h2 h1' h2' hs
    subst h1
    subst h2
    subst h1'
    subst h2'
    subst hs
    rfl
  · intro env h1 h2 h3
    obtain ⟨re, rr, ia, is, pa, ps⟩ := env
    dsimp only at h1 h2 h3
    subst h1
    subst h2
    subst h3
    rfl
  · intro env h1 h2 h3 hg
    obtain ⟨re, rr, ia, is, pa, ps⟩ := env
    dsimp only at h1 h2 h3 hg
    subst h1
    subst h2
    subst h3
    simp only [get_power_consumption, hg]
    norm_num
    all_goals decide

/-- Witness for C3's corrected claim: an empty environment yields `None`. -/
theorem probe_chain_commits_to_first_present_witness :
    get_power_consumption ⟨false, [], false, "", false, ""⟩ = none :=
  probe_chain_commits_to_first_present.2.1 ⟨false, [], false, "", false, ""⟩ rfl rfl rfl

/-- An environment whose RAPL counter would read 1000000 µJ and, one second
later, 3000000 µJ. -/
def raplEnvTwoReads : PowerEnv := ⟨true, ["1000000", "3000000"], false, "", false, ""⟩

/-- C4: the RAPL branch (main.py:51-55) performs a single read of the
cumulative microjoule counter and divides by 1e6; with successive counter
reads 1000000 µJ then 3000000 µJ one second apart, the code returns 1.0
(the cumulative joule count) while the spec's two-read delta semantics
gives 2.0 W. -/
theorem rapl_single_read_divergence :
    get_power_consumption raplEnvTwoReads = some 1
    ∧ raplDeltaWatts raplEnvTwoReads = some 2
    ∧ (1 : ℚ) ≠ 2 := by decide
